import Mathlib

/-
Verification of the EcoScore calculator service.

The development is a shallow embedding of the client-side calculator module
(the revision that carries the localStorage fallback logic): the pure mock
emission model, the transport layer used by the calculator, and the two
calculator operations built on top of them.  JavaScript numbers are modelled
by exact rationals; `Math.round` is modelled by rounding half toward
positive infinity.
-/

namespace EcoScore

/-- Model of JavaScript `Math.round`: round to the nearest integer, halves
toward positive infinity. -/
def jsRound (x : ℚ) : ℤ := ⌊x + 1/2⌋

/-- Model of `Math.round(x * 10) / 10`: round to one decimal place. -/
def round1 (x : ℚ) : ℚ := (jsRound (x * 10) : ℚ) / 10

/-- A transport line item.  The numeric string field `distance` is modelled
by `Option ℚ`: `none` stands for a missing, empty or non-numeric value
(all of which the source skips), `some d` for a string parsing to `d`.
The JS field `travelClass` is embedded under the name `travelCls`. -/
structure TransportItem where
  transportType : String
  vehicleType : Option String
  travelCls : Option String
  distance : Option ℚ
  distanceUnit : String
deriving DecidableEq

/-- An electricity line item; `consumption` is a numeric string in kWh. -/
structure ElectricityItem where
  consumption : Option ℚ
deriving DecidableEq

/-- A waste line item; `garbageBags` is a numeric string count. -/
structure WasteItem where
  garbageBags : Option ℚ
deriving DecidableEq

/-- A food line item; `moneySpent` is a numeric string amount. -/
structure FoodItem where
  moneySpent : Option ℚ
  eateryType : String
deriving DecidableEq

/-- The four per-category collections handed to the mock calculation. -/
structure CalculationInput where
  transportData : List TransportItem
  electricityData : List ElectricityItem
  wasteData : List WasteItem
  foodData : List FoodItem
deriving DecidableEq

/-- Miles to kilometers conversion factor from the source. -/
def milesToKm : ℚ := 1.60934

/-- The `emissionFactor` computed by the transport branch of
`mockCalculation`: a `switch` on `transportType` that leaves the initial 0
for unrecognized types. -/
def transportEmissionFactor (item : TransportItem) : ℚ :=
  if item.transportType = "car" then
    if item.vehicleType = some "small" then 0.15
    else if item.vehicleType = some "medium" then 0.2 else 0.3
  else if item.transportType = "bus" then 0.1
  else if item.transportType = "train" then 0.05
  else if item.transportType = "plane" then
    if item.travelCls = some "economy" then 0.25
    else if item.travelCls = some "business" then 0.5 else 0.75
  else 0

/-- Distance after the unit normalization step of `mockCalculation`. -/
def normalizedDistance (item : TransportItem) (d : ℚ) : ℚ :=
  if item.distanceUnit = "miles" then d * milesToKm else d

/-- The transport `reduce` of `mockCalculation`: items whose distance is
missing, non-numeric or not positive leave the accumulator unchanged. -/
def transportEmissions (l : List TransportItem) : ℚ :=
  l.foldl (fun total item =>
    match item.distance with
    | none => total
    | some d =>
      if d ≤ 0 then total
      else total + normalizedDistance item d * transportEmissionFactor item) 0

/-- The electricity `reduce` of `mockCalculation`. -/
def electricityEmissions (l : List ElectricityItem) : ℚ :=
  l.foldl (fun total item =>
    match item.consumption with
    | none => total
    | some c => if c ≤ 0 then total else total + c * 0.5) 0

/-- The waste `reduce` of `mockCalculation`. -/
def wasteEmissions (l : List WasteItem) : ℚ :=
  l.foldl (fun total item =>
    match item.garbageBags with
    | none => total
    | some b => if b ≤ 0 then total else total + b * 10) 0

/-- The `factor` computed by the food branch of `mockCalculation`, 0 for
unrecognized eatery types. -/
def eateryFactor (item : FoodItem) : ℚ :=
  if item.eateryType = "homeCooked" then 0.5
  else if item.eateryType = "fastFood" then 1.2
  else if item.eateryType = "restaurant" then 2
  else 0

/-- The food `reduce` of `mockCalculation`. -/
def foodEmissions (l : List FoodItem) : ℚ :=
  l.foldl (fun total item =>
    match item.moneySpent with
    | none => total
    | some s => if s ≤ 0 then total else total + s * eateryFactor item) 0

/-- The variable `total` of `mockCalculation` before any rounding. -/
def unroundedTotal (input : CalculationInput) : ℚ :=
  transportEmissions input.transportData + electricityEmissions input.electricityData
    + wasteEmissions input.wasteData + foodEmissions input.foodData

/-- The inner `getPercentage` helper of `mockCalculation`, including its
division-by-zero guard. -/
def getPercentage (total value : ℚ) : ℤ :=
  if total = 0 then 0 else jsRound (value / total * 100)

/-- One entry of the result breakdown. -/
structure CategoryBreakdown where
  emissions : ℚ
  percentage : ℤ
deriving DecidableEq

/-- The `breakdown` object of the calculation result. -/
structure Breakdown where
  transport : CategoryBreakdown
  electricity : CategoryBreakdown
  waste : CategoryBreakdown
  food : CategoryBreakdown
deriving DecidableEq

/-- The object returned by `mockCalculation`. -/
structure CalculationResult where
  total : ℚ
  breakdown : Breakdown
deriving DecidableEq

/-- The mock calculation: per-category reduces, a grand total, and the
result object with per-category rounding and percentages. -/
def mockCalculation (input : CalculationInput) : CalculationResult :=
  let tE := transportEmissions input.transportData
  let eE := electricityEmissions input.electricityData
  let wE := wasteEmissions input.wasteData
  let fE := foodEmissions input.foodData
  let total := tE + eE + wE + fE
  { total := round1 total
    breakdown :=
      { transport := ⟨round1 tE, getPercentage total tE⟩
        electricity := ⟨round1 eE, getPercentage total eE⟩
        waste := ⟨round1 wE, getPercentage total wE⟩
        food := ⟨round1 fE, getPercentage total fE⟩ } }

/-!  Specification-side definitions.

The following definitions transcribe the specification's wording for the
emission model — per-category sums of quantity times a fixed factor over
the valid line items, with the miles conversion applied first, rounding to
one decimal place half-up at the tenths digit, and percentages rounded
half-up from the unrounded category values — to be compared with the
embedded source code above. -/

/-- Spec-side rounding to 1 decimal place, half-up at the tenths digit. -/
def roundTenthsHalfUp (x : ℚ) : ℚ := (⌊x * 10 + 1/2⌋ : ℚ) / 10

/-- Spec-side rounding to the nearest integer, halves up. -/
def roundHalfUp (x : ℚ) : ℤ := ⌊x + 1/2⌋

/-- Spec-side emission of one transport item: for a valid positive
distance, distance (miles converted via 1.60934) times the factor
car 0.15/0.20/0.30 by vehicle size, bus 0.10, train 0.05,
plane 0.25/0.50/0.75 by travel class; 0 otherwise. -/
def specTransportItemEmission (item : TransportItem) : ℚ :=
  match item.distance with
  | none => 0
  | some d =>
    if 0 < d then
      (if item.distanceUnit = "miles" then d * 1.60934 else d) *
        (if item.transportType = "car" then
           if item.vehicleType = some "small" then 0.15
           else if item.vehicleType = some "medium" then 0.2 else 0.3
         else if item.transportType = "bus" then 0.1
         else if item.transportType = "train" then 0.05
         else if item.transportType = "plane" then
           if item.travelCls = some "economy" then 0.25
           else if item.travelCls = some "business" then 0.5 else 0.75
         else 0)
    else 0

/-- Spec-side emission of one electricity item: 0.5 per kWh. -/
def specElectricityItemEmission (item : ElectricityItem) : ℚ :=
  match item.consumption with
  | none => 0
  | some c => if 0 < c then c * 0.5 else 0

/-- Spec-side emission of one waste item: 10 per garbage bag. -/
def specWasteItemEmission (item : WasteItem) : ℚ :=
  match item.garbageBags with
  | none => 0
  | some b => if 0 < b then b * 10 else 0

/-- Spec-side emission of one food item: money spent times
0.5/1.2/2.0 by eatery type. -/
def specFoodItemEmission (item : FoodItem) : ℚ :=
  match item.moneySpent with
  | none => 0
  | some s =>
    if 0 < s then
      s * (if item.eateryType = "homeCooked" then 0.5
           else if item.eateryType = "fastFood" then 1.2
           else if item.eateryType = "restaurant" then 2
           else 0)
    else 0

/-- Spec-side transport category total: sum over the line items. -/
def specTransportEmissions (l : List TransportItem) : ℚ :=
  (l.map specTransportItemEmission).sum

/-- Spec-side electricity category total. -/
def specElectricityEmissions (l : List ElectricityItem) : ℚ :=
  (l.map specElectricityItemEmission).sum

/-- Spec-side waste category total. -/
def specWasteEmissions (l : List WasteItem) : ℚ :=
  (l.map specWasteItemEmission).sum

/-- Spec-side food category total. -/
def specFoodEmissions (l : List FoodItem) : ℚ :=
  (l.map specFoodItemEmission).sum

/-- Spec-side unrounded grand total. -/
def specTotal (input : CalculationInput) : ℚ :=
  specTransportEmissions input.transportData
    + specElectricityEmissions input.electricityData
    + specWasteEmissions input.wasteData
    + specFoodEmissions input.foodData

/-!  Bridging lemmas between the accumulator form of the source and the
sum-of-items form of the specification. -/

theorem foldl_add_eq_sum {α : Type} (f : ℚ → α → ℚ) (g : α → ℚ)
    (hf : ∀ t x, f t x = t + g x) :
    ∀ (l : List α) (a : ℚ), l.foldl f a = a + (l.map g).sum := by
  intro l
  induction l with
  | nil => intro a; simp
  | cons x xs ih =>
    intro a
    rw [List.foldl_cons, ih, hf, List.map_cons, List.sum_cons]
    ring

theorem transportEmissions_eq_spec (l : List TransportItem) :
    transportEmissions l = specTransportEmissions l := by
  unfold transportEmissions specTransportEmissions
  rw [foldl_add_eq_sum _ specTransportItemEmission ?step, zero_add]
  case step =>
    intro t x
    unfold specTransportItemEmission
    cases hx : x.distance with
    | none => simp
    | some d =>
      dsimp only
      rcases le_or_lt d 0 with hd | hd
      · rw [if_pos hd, if_neg (not_lt.mpr hd)]; ring
      · rw [if_neg (not_le.mpr hd), if_pos hd]
        simp only [normalizedDistance, transportEmissionFactor, milesToKm]

theorem electricityEmissions_eq_spec (l : List ElectricityItem) :
    electricityEmissions l = specElectricityEmissions l := by
  unfold electricityEmissions specElectricityEmissions
  rw [foldl_add_eq_sum _ specElectricityItemEmission ?step, zero_add]
  case step =>
    intro t x
    unfold specElectricityItemEmission
    cases hx : x.consumption with
    | none => simp
    | some c =>
      dsimp only
      rcases le_or_lt c 0 with hc | hc
      · rw [if_pos hc, if_neg (not_lt.mpr hc)]; ring
      · rw [if_neg (not_le.mpr hc), if_pos hc]

theorem wasteEmissions_eq_spec (l : List WasteItem) :
    wasteEmissions l = specWasteEmissions l := by
  unfold wasteEmissions specWasteEmissions
  rw [foldl_add_eq_sum _ specWasteItemEmission ?step, zero_add]
  case step =>
    intro t x
    unfold specWasteItemEmission
    cases hx : x.garbageBags with
    | none => simp
    | some b =>
      dsimp only
      rcases le_or_lt b 0 with hb | hb
      · rw [if_pos hb, if_neg (not_lt.mpr hb)]; ring
      · rw [if_neg (not_le.mpr hb), if_pos hb]

theorem foodEmissions_eq_spec (l : List FoodItem) :
    foodEmissions l = specFoodEmissions l := by
  unfold foodEmissions specFoodEmissions
  rw [foldl_add_eq_sum _ specFoodItemEmission ?step, zero_add]
  case step =>
    intro t x
    unfold specFoodItemEmission
    cases hx : x.moneySpent with
    | none => simp
    | some s =>
      dsimp only
      rcases le_or_lt s 0 with hs | hs
      · rw [if_pos hs, if_neg (not_lt.mpr hs)]; ring
      · rw [if_neg (not_le.mpr hs), if_pos hs]
        simp only [eateryFactor]

theorem unroundedTotal_eq_spec (input : CalculationInput) :
    unroundedTotal input = specTotal input := by
  unfold unroundedTotal specTotal
  rw [transportEmissions_eq_spec, electricityEmissions_eq_spec,
    wasteEmissions_eq_spec, foodEmissions_eq_spec]

theorem round1_eq_roundTenthsHalfUp (x : ℚ) : round1 x = roundTenthsHalfUp x := rfl

/-!  Helper lemmas: inserting one item into a category list, and
congruence of `mockCalculation` in one category. -/

theorem transportEmissions_insert (l1 l2 : List TransportItem) (x : TransportItem) :
    transportEmissions (l1 ++ x :: l2) =
      transportEmissions (l1 ++ l2) + specTransportItemEmission x := by
  rw [transportEmissions_eq_spec, transportEmissions_eq_spec]
  unfold specTransportEmissions
  simp only [List.map_append, List.map_cons, List.sum_append, List.sum_cons]
  ring

theorem electricityEmissions_insert (l1 l2 : List ElectricityItem) (x : ElectricityItem) :
    electricityEmissions (l1 ++ x :: l2) =
      electricityEmissions (l1 ++ l2) + specElectricityItemEmission x := by
  rw [electricityEmissions_eq_spec, electricityEmissions_eq_spec]
  unfold specElectricityEmissions
  simp only [List.map_append, List.map_cons, List.sum_append, List.sum_cons]
  ring

theorem wasteEmissions_insert (l1 l2 : List WasteItem) (x : WasteItem) :
    wasteEmissions (l1 ++ x :: l2) =
      wasteEmissions (l1 ++ l2) + specWasteItemEmission x := by
  rw [wasteEmissions_eq_spec, wasteEmissions_eq_spec]
  unfold specWasteEmissions
  simp only [List.map_append, List.map_cons, List.sum_append, List.sum_cons]
  ring

theorem foodEmissions_insert (l1 l2 : List FoodItem) (x : FoodItem) :
    foodEmissions (l1 ++ x :: l2) =
      foodEmissions (l1 ++ l2) + specFoodItemEmission x := by
  rw [foodEmissions_eq_spec, foodEmissions_eq_spec]
  unfold specFoodEmissions
  simp only [List.map_append, List.map_cons, List.sum_append, List.sum_cons]
  ring

theorem mock_congr_transport (input : CalculationInput) (A B : List TransportItem)
    (h : transportEmissions A = transportEmissions B) :
    mockCalculation { input with transportData := A } =
      mockCalculation { input with transportData := B } := by
  simp only [mockCalculation, h]

theorem mock_congr_electricity (input : CalculationInput) (A B : List ElectricityItem)
    (h : electricityEmissions A = electricityEmissions B) :
    mockCalculation { input with electricityData := A } =
      mockCalculation { input with electricityData := B } := by
  simp only [mockCalculation, h]

theorem mock_congr_waste (input : CalculationInput) (A B : List WasteItem)
    (h : wasteEmissions A = wasteEmissions B) :
    mockCalculation { input with wasteData := A } =
      mockCalculation { input with wasteData := B } := by
  simp only [mockCalculation, h]

theorem mock_congr_food (input : CalculationInput) (A B : List FoodItem)
    (h : foodEmissions A = foodEmissions B) :
    mockCalculation { input with foodData := A } =
      mockCalculation { input with foodData := B } := by
  simp only [mockCalculation, h]

/-!  Claims about the emission model. -/

/-- C1: for every CalculationInput, the mock calculation returns
total = transport + electricity + waste + food emissions, where each
category is the sum over its valid line items of quantity times the fixed
factor (car 0.15/0.20/0.30 per km by vehicle size, bus 0.10, train 0.05,
plane 0.25/0.50/0.75 by travel class, electricity 0.5 per kWh, waste 10
per bag, food 0.5/1.2/2.0 by eatery type), distances in miles converted
via 1.60934 first, and both the total and each per-category emission value
are rounded to one decimal place, half-up at the tenths digit. -/
theorem mockCalculation_matches_spec (input : CalculationInput) :
    (mockCalculation input).total = roundTenthsHalfUp (specTotal input) ∧
    (mockCalculation input).breakdown.transport.emissions =
      roundTenthsHalfUp (specTransportEmissions input.transportData) ∧
    (mockCalculation input).breakdown.electricity.emissions =
      roundTenthsHalfUp (specElectricityEmissions input.electricityData) ∧
    (mockCalculation input).breakdown.waste.emissions =
      roundTenthsHalfUp (specWasteEmissions input.wasteData) ∧
    (mockCalculation input).breakdown.food.emissions =
      roundTenthsHalfUp (specFoodEmissions input.foodData) := by
  refine ⟨?_, ?_, ?_, ?_, ?_⟩ <;>
    simp only [mockCalculation, round1_eq_roundTenthsHalfUp, specTotal,
      transportEmissions_eq_spec, electricityEmissions_eq_spec,
      wasteEmissions_eq_spec, foodEmissions_eq_spec]

/-- C2: a line item whose primary numeric field is missing, non-numeric
(both modelled by `none`) or not positive contributes exactly zero: the
mock calculation on an input containing such an item equals the mock
calculation on the input with the item removed, in every category.  The
embedded function is total, so no error is ever raised. -/
theorem invalid_item_contributes_zero (input : CalculationInput)
    (ti : TransportItem) (tl1 tl2 : List TransportItem)
    (ei : ElectricityItem) (el1 el2 : List ElectricityItem)
    (wi : WasteItem) (wl1 wl2 : List WasteItem)
    (fo : FoodItem) (fl1 fl2 : List FoodItem)
    (ht : ∀ d, ti.distance = some d → d ≤ 0)
    (he : ∀ c, ei.consumption = some c → c ≤ 0)
    (hw : ∀ b, wi.garbageBags = some b → b ≤ 0)
    (hf : ∀ s, fo.moneySpent = some s → s ≤ 0) :
    mockCalculation { input with transportData := tl1 ++ ti :: tl2 } =
      mockCalculation { input with transportData := tl1 ++ tl2 } ∧
    mockCalculation { input with electricityData := el1 ++ ei :: el2 } =
      mockCalculation { input with electricityData := el1 ++ el2 } ∧
    mockCalculation { input with wasteData := wl1 ++ wi :: wl2 } =
      mockCalculation { input with wasteData := wl1 ++ wl2 } ∧
    mockCalculation { input with foodData := fl1 ++ fo :: fl2 } =
      mockCalculation { input with foodData := fl1 ++ fl2 } := by
  have h1 : specTransportItemEmission ti = 0 := by
    unfold specTransportItemEmission
    cases hd : ti.distance with
    | none => rfl
    | some d => dsimp only; rw [if_neg (not_lt.mpr (ht d hd))]
  have h2 : specElectricityItemEmission ei = 0 := by
    unfold specElectricityItemEmission
    cases hc : ei.consumption with
    | none => rfl
    | some c => dsimp only; rw [if_neg (not_lt.mpr (he c hc))]
  have h3 : specWasteItemEmission wi = 0 := by
    unfold specWasteItemEmission
    cases hb : wi.garbageBags with
    | none => rfl
    | some b => dsimp only; rw [if_neg (not_lt.mpr (hw b hb))]
  have h4 : specFoodItemEmission fo = 0 := by
    unfold specFoodItemEmission
    cases hs : fo.moneySpent with
    | none => rfl
    | some s => dsimp only; rw [if_neg (not_lt.mpr (hf s hs))]
  refine ⟨mock_congr_transport _ _ _ ?_, mock_congr_electricity _ _ _ ?_,
    mock_congr_waste _ _ _ ?_, mock_congr_food _ _ _ ?_⟩
  · rw [transportEmissions_insert, h1, add_zero]
  · rw [electricityEmissions_insert, h2, add_zero]
  · rw [wasteEmissions_insert, h3, add_zero]
  · rw [foodEmissions_insert, h4, add_zero]

/-- Witness for C2 at concrete invalid items: a car trip with negative
distance, an electricity item with missing consumption, a waste item with
zero bags, and a food item with negative spending are each ignored. -/
theorem invalid_item_contributes_zero_witness :
    mockCalculation ⟨[⟨"car", none, none, some (-1), "km"⟩], [], [], []⟩ =
      mockCalculation ⟨[], [], [], []⟩ ∧
    mockCalculation ⟨[], [⟨none⟩], [], []⟩ = mockCalculation ⟨[], [], [], []⟩ ∧
    mockCalculation ⟨[], [], [⟨some 0⟩], []⟩ = mockCalculation ⟨[], [], [], []⟩ ∧
    mockCalculation ⟨[], [], [], [⟨some (-2), "fastFood"⟩]⟩ =
      mockCalculation ⟨[], [], [], []⟩ := by
  have h := invalid_item_contributes_zero ⟨[], [], [], []⟩
    ⟨"car", none, none, some (-1), "km"⟩ [] [] ⟨none⟩ [] [] ⟨some 0⟩ [] []
    ⟨some (-2), "fastFood"⟩ [] []
    (by intro d hd; rw [Option.some.injEq] at hd; rw [← hd]; norm_num)
    (by intro c hc; exact Option.noConfusion hc)
    (by intro b hb; rw [Option.some.injEq] at hb; rw [← hb])
    (by intro s hs; rw [Option.some.injEq] at hs; rw [← hs]; norm_num)
  exact h

/-- C3: each breakdown percentage equals the half-up rounding of
category_unrounded / total_unrounded * 100, computed from the pre-rounding
category sums and pre-rounding total, and every percentage is 0 when the
unrounded total is 0. -/
theorem mockCalculation_percentage_spec (input : CalculationInput) :
    (specTotal input = 0 →
      (mockCalculation input).breakdown.transport.percentage = 0 ∧
      (mockCalculation input).breakdown.electricity.percentage = 0 ∧
      (mockCalculation input).breakdown.waste.percentage = 0 ∧
      (mockCalculation input).breakdown.food.percentage = 0) ∧
    (0 < specTotal input →
      (mockCalculation input).breakdown.transport.percentage =
        roundHalfUp (specTransportEmissions input.transportData / specTotal input * 100) ∧
      (mockCalculation input).breakdown.electricity.percentage =
        roundHalfUp (specElectricityEmissions input.electricityData / specTotal input * 100) ∧
      (mockCalculation input).breakdown.waste.percentage =
        roundHalfUp (specWasteEmissions input.wasteData / specTotal input * 100) ∧
      (mockCalculation input).breakdown.food.percentage =
        roundHalfUp (specFoodEmissions input.foodData / specTotal input * 100)) := by
  have hspec : specTransportEmissions input.transportData
      + specElectricityEmissions input.electricityData
      + specWasteEmissions input.wasteData + specFoodEmissions input.foodData
      = specTotal input := rfl
  constructor
  · intro h0
    refine ⟨?_, ?_, ?_, ?_⟩ <;>
      simp [mockCalculation, getPercentage, transportEmissions_eq_spec,
        electricityEmissions_eq_spec, wasteEmissions_eq_spec,
        foodEmissions_eq_spec, hspec, h0]
  · intro hpos
    have hne : specTotal input ≠ 0 := ne_of_gt hpos
    refine ⟨?_, ?_, ?_, ?_⟩ <;>
      simp only [mockCalculation, getPercentage, transportEmissions_eq_spec,
        electricityEmissions_eq_spec, wasteEmissions_eq_spec,
        foodEmissions_eq_spec, hspec, if_neg hne, roundHalfUp, jsRound]

/-- Witness for C3: an all-empty input has every percentage 0, and a
single 10 kWh electricity item yields electricity percentage equal to the
rounded 100 percent share. -/
theorem mockCalculation_percentage_spec_witness :
    (mockCalculation ⟨[], [], [], []⟩).breakdown.transport.percentage = 0 ∧
    (mockCalculation ⟨[], [⟨some 10⟩], [], []⟩).breakdown.electricity.percentage =
      roundHalfUp (specElectricityEmissions [⟨some 10⟩] /
        specTotal ⟨[], [⟨some 10⟩], [], []⟩ * 100) := by
  constructor
  · exact ((mockCalculation_percentage_spec ⟨[], [], [], []⟩).1
      (by norm_num [specTotal, specTransportEmissions, specElectricityEmissions,
        specWasteEmissions, specFoodEmissions])).1
  · refine ((mockCalculation_percentage_spec ⟨[], [⟨some 10⟩], [], []⟩).2 ?_).2.1
    norm_num [specTotal, specTransportEmissions, specElectricityEmissions,
      specWasteEmissions, specFoodEmissions, specElectricityItemEmission]

/-- C10: a car transport item with a valid positive distance whose
vehicleType is neither small nor medium (including a missing vehicleType)
is charged the large-car factor 0.30 per km, and a transport item whose
transportType is none of car, bus, train or plane contributes exactly zero
regardless of its distance. -/
theorem transport_default_factors (i j : TransportItem)
    (l1 l2 : List TransportItem) (d : ℚ) :
    (i.transportType = "car" → i.vehicleType ≠ some "small" →
      i.vehicleType ≠ some "medium" → i.distance = some d → 0 < d →
      transportEmissions (l1 ++ i :: l2) =
        transportEmissions (l1 ++ l2) +
          (if i.distanceUnit = "miles" then d * milesToKm else d) * 0.3) ∧
    (j.transportType ≠ "car" → j.transportType ≠ "bus" →
      j.transportType ≠ "train" → j.transportType ≠ "plane" →
      transportEmissions (l1 ++ j :: l2) = transportEmissions (l1 ++ l2)) := by
  constructor
  · intro hcar hsmall hmedium hd hpos
    rw [transportEmissions_insert]
    have : specTransportItemEmission i =
        (if i.distanceUnit = "miles" then d * milesToKm else d) * 0.3 := by
      unfold specTransportItemEmission
      rw [hd]
      dsimp only
      rw [if_pos hpos, if_pos hcar, if_neg hsmall, if_neg hmedium]
      unfold milesToKm
      rfl
    rw [this]
  · intro hc hb htr hp
    rw [transportEmissions_insert]
    have : specTransportItemEmission j = 0 := by
      unfold specTransportItemEmission
      cases hd : j.distance with
      | none => rfl
      | some d0 =>
        dsimp only
        rcases le_or_lt d0 0 with h0 | h0
        · rw [if_neg (not_lt.mpr h0)]
        · rw [if_pos h0, if_neg hc, if_neg hb, if_neg htr, if_neg hp, mul_zero]
    rw [this, add_zero]

/-- Witness for C10: a car item with an unrecognized vehicleType "suv" is
charged 10 km times 0.30, and a "boat" item with a large valid distance
contributes nothing. -/
theorem transport_default_factors_witness :
    transportEmissions [⟨"car", some "suv", none, some 10, "km"⟩] =
      transportEmissions [] + 10 * 0.3 ∧
    transportEmissions [⟨"boat", none, none, some 99, "km"⟩] =
      transportEmissions [] := by
  constructor
  · have h := (transport_default_factors ⟨"car", some "suv", none, some 10, "km"⟩
      ⟨"car", some "suv", none, some 10, "km"⟩ [] [] 10).1 rfl
      (by simp) (by simp) rfl (by norm_num)
    simpa using h
  · have h := (transport_default_factors ⟨"boat", none, none, some 99, "km"⟩
      ⟨"boat", none, none, some 99, "km"⟩ [] [] 0).2
      (by simp) (by simp) (by simp) (by simp)
    simpa using h

/-!  Nonnegativity of the category sums and bounds on rounded shares. -/

theorem specTransportItemEmission_nonneg (item : TransportItem) :
    0 ≤ specTransportItemEmission item := by
  unfold specTransportItemEmission
  cases item.distance with
  | none => exact le_refl 0
  | some d =>
    dsimp only
    rcases lt_or_le 0 d with h | h
    · rw [if_pos h]
      apply mul_nonneg
      · split_ifs with hm
        · nlinarith
        · exact h.le
      · split_ifs <;> norm_num
    · rw [if_neg (not_lt.mpr h)]

theorem specElectricityItemEmission_nonneg (item : ElectricityItem) :
    0 ≤ specElectricityItemEmission item := by
  unfold specElectricityItemEmission
  cases item.consumption with
  | none => exact le_refl 0
  | some c =>
    dsimp only
    rcases lt_or_le 0 c with h | h
    · rw [if_pos h]; nlinarith
    · rw [if_neg (not_lt.mpr h)]

theorem specWasteItemEmission_nonneg (item : WasteItem) :
    0 ≤ specWasteItemEmission item := by
  unfold specWasteItemEmission
  cases item.garbageBags with
  | none => exact le_refl 0
  | some b =>
    dsimp only
    rcases lt_or_le 0 b with h | h
    · rw [if_pos h]; nlinarith
    · rw [if_neg (not_lt.mpr h)]

theorem specFoodItemEmission_nonneg (item : FoodItem) :
    0 ≤ specFoodItemEmission item := by
  unfold specFoodItemEmission
  cases item.moneySpent with
  | none => exact le_refl 0
  | some s =>
    dsimp only
    rcases lt_or_le 0 s with h | h
    · rw [if_pos h]
      apply mul_nonneg h.le
      split_ifs <;> norm_num
    · rw [if_neg (not_lt.mpr h)]

theorem specTransportEmissions_nonneg (l : List TransportItem) :
    0 ≤ specTransportEmissions l := by
  apply List.sum_nonneg
  intro x hx
  obtain ⟨i, _, rfl⟩ := List.mem_map.mp hx
  exact specTransportItemEmission_nonneg i

theorem specElectricityEmissions_nonneg (l : List ElectricityItem) :
    0 ≤ specElectricityEmissions l := by
  apply List.sum_nonneg
  intro x hx
  obtain ⟨i, _, rfl⟩ := List.mem_map.mp hx
  exact specElectricityItemEmission_nonneg i

theorem specWasteEmissions_nonneg (l : List WasteItem) :
    0 ≤ specWasteEmissions l := by
  apply List.sum_nonneg
  intro x hx
  obtain ⟨i, _, rfl⟩ := List.mem_map.mp hx
  exact specWasteItemEmission_nonneg i

theorem specFoodEmissions_nonneg (l : List FoodItem) :
    0 ≤ specFoodEmissions l := by
  apply List.sum_nonneg
  intro x hx
  obtain ⟨i, _, rfl⟩ := List.mem_map.mp hx
  exact specFoodItemEmission_nonneg i

theorem jsRound_nonneg {x : ℚ} (h : 0 ≤ x) : 0 ≤ jsRound x := by
  unfold jsRound
  exact Int.le_floor.mpr (by push_cast; linarith)

theorem jsRound_le_100 {x : ℚ} (h : x ≤ 100) : jsRound x ≤ 100 := by
  have : jsRound x < 101 := by
    unfold jsRound
    apply Int.floor_lt.mpr
    push_cast
    linarith
  omega

theorem jsRound_le (x : ℚ) : (jsRound x : ℚ) ≤ x + 1/2 := Int.floor_le _

theorem lt_jsRound (x : ℚ) : x - 1/2 < (jsRound x : ℚ) := by
  unfold jsRound
  have := Int.lt_floor_add_one (x + 1/2)
  linarith

theorem jsRound_share_bounds (v S : ℚ) (hv : 0 ≤ v) (hvS : v ≤ S) (hS : 0 < S) :
    0 ≤ jsRound (v / S * 100) ∧ jsRound (v / S * 100) ≤ 100 := by
  have h1 : 0 ≤ v / S * 100 := by
    apply mul_nonneg (div_nonneg hv hS.le)
    norm_num
  have h2 : v / S * 100 ≤ 100 := by
    have : v / S ≤ 1 := (div_le_one hS).mpr hvS
    nlinarith
  exact ⟨jsRound_nonneg h1, jsRound_le_100 h2⟩

theorem jsRound_share_sum_bounds (t e w f : ℚ)
    (hS : 0 < t + e + w + f) :
    97 ≤ jsRound (t / (t + e + w + f) * 100) + jsRound (e / (t + e + w + f) * 100)
        + jsRound (w / (t + e + w + f) * 100) + jsRound (f / (t + e + w + f) * 100) ∧
    jsRound (t / (t + e + w + f) * 100) + jsRound (e / (t + e + w + f) * 100)
        + jsRound (w / (t + e + w + f) * 100) + jsRound (f / (t + e + w + f) * 100) ≤ 103 := by
  have hne : t + e + w + f ≠ 0 := ne_of_gt hS
  have hsum : t / (t + e + w + f) * 100 + e / (t + e + w + f) * 100
      + w / (t + e + w + f) * 100 + f / (t + e + w + f) * 100 = 100 := by
    field_simp
    ring
  have u1 := jsRound_le (t / (t + e + w + f) * 100)
  have u2 := jsRound_le (e / (t + e + w + f) * 100)
  have u3 := jsRound_le (w / (t + e + w + f) * 100)
  have u4 := jsRound_le (f / (t + e + w + f) * 100)
  have d1 := lt_jsRound (t / (t + e + w + f) * 100)
  have d2 := lt_jsRound (e / (t + e + w + f) * 100)
  have d3 := lt_jsRound (w / (t + e + w + f) * 100)
  have d4 := lt_jsRound (f / (t + e + w + f) * 100)
  constructor
  · have hlow : (98 : ℚ) < (jsRound (t / (t + e + w + f) * 100) : ℚ)
        + (jsRound (e / (t + e + w + f) * 100) : ℚ)
        + (jsRound (w / (t + e + w + f) * 100) : ℚ)
        + (jsRound (f / (t + e + w + f) * 100) : ℚ) := by linarith
    have : (98 : ℤ) < jsRound (t / (t + e + w + f) * 100)
        + jsRound (e / (t + e + w + f) * 100) + jsRound (w / (t + e + w + f) * 100)
        + jsRound (f / (t + e + w + f) * 100) := by exact_mod_cast hlow
    omega
  · have hhigh : (jsRound (t / (t + e + w + f) * 100) : ℚ)
        + (jsRound (e / (t + e + w + f) * 100) : ℚ)
        + (jsRound (w / (t + e + w + f) * 100) : ℚ)
        + (jsRound (f / (t + e + w + f) * 100) : ℚ) ≤ 102 := by linarith
    have : jsRound (t / (t + e + w + f) * 100)
        + jsRound (e / (t + e + w + f) * 100) + jsRound (w / (t + e + w + f) * 100)
        + jsRound (f / (t + e + w + f) * 100) ≤ (102 : ℤ) := by exact_mod_cast hhigh
    omega

/-- C8: for any input with positive unrounded total, each breakdown
percentage lies in [0, 100], and the four percentages sum to 100 plus or
minus 3. -/
theorem percentages_in_range (input : CalculationInput)
    (h : 0 < unroundedTotal input) :
    (0 ≤ (mockCalculation input).breakdown.transport.percentage ∧
      (mockCalculation input).breakdown.transport.percentage ≤ 100) ∧
    (0 ≤ (mockCalculation input).breakdown.electricity.percentage ∧
      (mockCalculation input).breakdown.electricity.percentage ≤ 100) ∧
    (0 ≤ (mockCalculation input).breakdown.waste.percentage ∧
      (mockCalculation input).breakdown.waste.percentage ≤ 100) ∧
    (0 ≤ (mockCalculation input).breakdown.food.percentage ∧
      (mockCalculation input).breakdown.food.percentage ≤ 100) ∧
    (97 ≤ (mockCalculation input).breakdown.transport.percentage
        + (mockCalculation input).breakdown.electricity.percentage
        + (mockCalculation input).breakdown.waste.percentage
        + (mockCalculation input).breakdown.food.percentage ∧
      (mockCalculation input).breakdown.transport.percentage
        + (mockCalculation input).breakdown.electricity.percentage
        + (mockCalculation input).breakdown.waste.percentage
        + (mockCalculation input).breakdown.food.percentage ≤ 103) := by
  have ht : 0 ≤ transportEmissions input.transportData := by
    rw [transportEmissions_eq_spec]; exact specTransportEmissions_nonneg _
  have he : 0 ≤ electricityEmissions input.electricityData := by
    rw [electricityEmissions_eq_spec]; exact specElectricityEmissions_nonneg _
  have hw : 0 ≤ wasteEmissions input.wasteData := by
    rw [wasteEmissions_eq_spec]; exact specWasteEmissions_nonneg _
  have hf : 0 ≤ foodEmissions input.foodData := by
    rw [foodEmissions_eq_spec]; exact specFoodEmissions_nonneg _
  unfold unroundedTotal at h
  have hne := ne_of_gt h
  have hpt : (mockCalculation input).breakdown.transport.percentage =
      jsRound (transportEmissions input.transportData /
        (transportEmissions input.transportData + electricityEmissions input.electricityData
          + wasteEmissions input.wasteData + foodEmissions input.foodData) * 100) := by
    simp only [mockCalculation, getPercentage, if_neg hne]
  have hpe : (mockCalculation input).breakdown.electricity.percentage =
      jsRound (electricityEmissions input.electricityData /
        (transportEmissions input.transportData + electricityEmissions input.electricityData
          + wasteEmissions input.wasteData + foodEmissions input.foodData) * 100) := by
    simp only [mockCalculation, getPercentage, if_neg hne]
  have hpw : (mockCalculation input).breakdown.waste.percentage =
      jsRound (wasteEmissions input.wasteData /
        (transportEmissions input.transportData + electricityEmissions input.electricityData
          + wasteEmissions input.wasteData + foodEmissions input.foodData) * 100) := by
    simp only [mockCalculation, getPercentage, if_neg hne]
  have hpf : (mockCalculation input).breakdown.food.percentage =
      jsRound (foodEmissions input.foodData /
        (transportEmissions input.transportData + electricityEmissions input.electricityData
          + wasteEmissions input.wasteData + foodEmissions input.foodData) * 100) := by
    simp only [mockCalculation, getPercentage, if_neg hne]
  rw [hpt, hpe, hpw, hpf]
  refine ⟨jsRound_share_bounds _ _ ht (by linarith) h,
    jsRound_share_bounds _ _ he (by linarith) h,
    jsRound_share_bounds _ _ hw (by linarith) h,
    jsRound_share_bounds _ _ hf (by linarith) h,
    jsRound_share_sum_bounds _ _ _ _ h⟩

/-- Witness for C8: a single 10 kWh electricity item gives a positive
unrounded total, and the four percentages sum to within [97, 103]. -/
theorem percentages_in_range_witness :
    0 < unroundedTotal ⟨[], [⟨some 10⟩], [], []⟩ ∧
    (97 ≤ (mockCalculation ⟨[], [⟨some 10⟩], [], []⟩).breakdown.transport.percentage
        + (mockCalculation ⟨[], [⟨some 10⟩], [], []⟩).breakdown.electricity.percentage
        + (mockCalculation ⟨[], [⟨some 10⟩], [], []⟩).breakdown.waste.percentage
        + (mockCalculation ⟨[], [⟨some 10⟩], [], []⟩).breakdown.food.percentage ∧
      (mockCalculation ⟨[], [⟨some 10⟩], [], []⟩).breakdown.transport.percentage
        + (mockCalculation ⟨[], [⟨some 10⟩], [], []⟩).breakdown.electricity.percentage
        + (mockCalculation ⟨[], [⟨some 10⟩], [], []⟩).breakdown.waste.percentage
        + (mockCalculation ⟨[], [⟨some 10⟩], [], []⟩).breakdown.food.percentage ≤ 103) := by
  have hpos : 0 < unroundedTotal ⟨[], [⟨some 10⟩], [], []⟩ := by
    norm_num [unroundedTotal, transportEmissions, electricityEmissions,
      wasteEmissions, foodEmissions]
  exact ⟨hpos, (percentages_in_range _ hpos).2.2.2.2⟩

/-!  Embedding of the transport layer and the calculator operations.

The remote endpoint is modelled by a `RemoteOutcome` parameter: either the
fetch (or its JSON decoding, or a non-2xx status) fails, or it yields a
parsed JSON value.  The auth store is a token and an optional user id; the
`calculations` localStorage slot is a `LocalLog`.  The nondeterministic
synthetic id and timestamp generated on persistence are passed as
parameters. -/

/-- A parsed JSON value as the calculator sees it. -/
inductive JsValue where
  | jnull
  | undef
  | jbool (b : Bool)
  | jnum (q : ℚ)
  | jstr (s : String)
  | jobj (fields : List (String × JsValue))
  | jarr (elems : List JsValue)

/-- JavaScript truthiness of a value. -/
def JsValue.truthy : JsValue → Bool
  | JsValue.jnull => false
  | JsValue.undef => false
  | JsValue.jbool b => b
  | JsValue.jnum q => decide (q ≠ 0)
  | JsValue.jstr s => decide (s ≠ "")
  | JsValue.jobj _ => true
  | JsValue.jarr _ => true

/-- Whether `typeof v` is the string "object". -/
def JsValue.isObjectType : JsValue → Bool
  | JsValue.jnull => true
  | JsValue.jobj _ => true
  | JsValue.jarr _ => true
  | _ => false

/-- The JavaScript `in` operator restricted to plain objects. -/
def JsValue.hasKey (k : String) : JsValue → Bool
  | JsValue.jobj fields => fields.any (fun p => p.1 == k)
  | _ => false

/-- The guard of `calculator.calculate` on the remote response:
`apiResult && typeof apiResult === "object" && "total" in apiResult`. -/
def isResultShaped (v : JsValue) : Bool :=
  v.truthy && v.isObjectType && v.hasKey "total"

/-- First field of an object with the given name, if any. -/
def lookupField (fields : List (String × JsValue)) (k : String) : Option JsValue :=
  (fields.find? (fun p => p.1 == k)).map Prod.snd

/-- Spec-side notion of a well-formed remote result: an object whose
`total` field holds a number. -/
def hasNumericTotal (v : JsValue) : Bool :=
  match v with
  | JsValue.jobj fields =>
    match lookupField fields "total" with
    | some (JsValue.jnum _) => true
    | _ => false
  | _ => false

/-- The auth store state: the session token and the current user id, as
read through `useAuthStore.getState()`.  `none` models a falsy value. -/
structure AuthState where
  token : Option String
  userId : Option String

/-- Outcome of the network interaction underlying one api call. -/
inductive RemoteOutcome where
  | netFail
  | resp (v : JsValue)

/-- The object the transport layer substitutes when the fetch fails. -/
def fallbackMessage : JsValue :=
  JsValue.jobj [("message", JsValue.jstr "Using Supabase as fallback")]

/-- The shared shape of `api.get` and `api.post`: throw when auth is
required and no token exists; otherwise the network failure is swallowed
by the inner catch, which substitutes `fallbackMessage`. -/
def apiRequest (auth : AuthState) (requireAuth : Bool) (remote : RemoteOutcome) :
    Except String JsValue :=
  if requireAuth ∧ auth.token = none then Except.error "Authentication required"
  else
    match remote with
    | RemoteOutcome.netFail => Except.ok fallbackMessage
    | RemoteOutcome.resp v => Except.ok v

/-- The raw form data handed to `calculator.calculate`; a category field
that is missing or not an array is modelled by `none`. -/
structure FormData where
  transportData : Option (List TransportItem)
  electricityData : Option (List ElectricityItem)
  wasteData : Option (List WasteItem)
  foodData : Option (List FoodItem)

/-- The `validFormData` coercion of `calculator.calculate`:
`Array.isArray(x) ? x : []` per category. -/
def validFormDataOf (fd : FormData) : CalculationInput :=
  { transportData := fd.transportData.getD []
    electricityData := fd.electricityData.getD []
    wasteData := fd.wasteData.getD []
    foodData := fd.foodData.getD [] }

/-- The `result_data` field of a stored record: a genuine calculation
result, an object carrying some other value under `total`, or an object
with no `total` field (so `total` reads as undefined). -/
inductive StoredResultData where
  | ofResult (r : CalculationResult)
  | withTotal (t : JsValue)
  | noTotal

/-- One record of the `calculations` localStorage slot. -/
structure StoredCalc where
  mongoId : String
  user_id : String
  created_at : ℤ
  result_data : Option StoredResultData
  input_data : CalculationInput

/-- An element of the parsed log array: a falsy entry or a record. -/
inductive StoredEntry where
  | nullEntry
  | stored (c : StoredCalc)

/-- State of the `calculations` localStorage slot. -/
inductive LocalLog where
  | absent
  | corrupt
  | notArray
  | entries (l : List StoredEntry)

/-- Reading the slot in `calculator.calculate`: a missing slot defaults to
the empty array, parse failures and non-arrays are replaced by []. -/
def parsedEntries : LocalLog → List StoredEntry
  | LocalLog.absent => []
  | LocalLog.corrupt => []
  | LocalLog.notArray => []
  | LocalLog.entries l => l

/-- What `calculator.calculate` hands back: the raw remote response, or
the locally computed result. -/
inductive CalcReturn where
  | fromRemote (v : JsValue)
  | fromLocal (r : CalculationResult)

/-- `calculator.calculate`: coerce the form data, try the remote call and
return its response when it passes the shape guard; otherwise compute the
mock result, persist it for an authenticated caller with a known user id,
and return it.  `freshId` and `now` stand for the generated synthetic id
and timestamp.  Paired with the resulting localStorage state. -/
def calculate (auth : AuthState) (remote : RemoteOutcome) (formData : FormData)
    (isAuthenticated : Bool) (freshId : String) (now : ℤ) (log : LocalLog) :
    CalcReturn × LocalLog :=
  let validFormData := validFormDataOf formData
  let fallbackStep : CalcReturn × LocalLog :=
    let mockResult := mockCalculation validFormData
    if isAuthenticated then
      match auth.userId with
      | none => (CalcReturn.fromLocal mockResult, log)
      | some uid =>
        let newCalculation : StoredCalc :=
          { mongoId := freshId
            user_id := uid
            created_at := now
            result_data := some (StoredResultData.ofResult mockResult)
            input_data := validFormData }
        (CalcReturn.fromLocal mockResult,
          LocalLog.entries (parsedEntries log ++ [StoredEntry.stored newCalculation]))
    else (CalcReturn.fromLocal mockResult, log)
  match apiRequest auth isAuthenticated remote with
  | Except.error _ => fallbackStep
  | Except.ok apiResult =>
    if isResultShaped apiResult then (CalcReturn.fromRemote apiResult, log)
    else fallbackStep

/-- The conditions of C4 under which the remote calculation path fails:
the network call fails (network error, non-2xx status or undecodable
body), or its decoded response does not pass the shape guard. -/
def remoteCalcFailed (remote : RemoteOutcome) : Prop :=
  remote = RemoteOutcome.netFail ∨
    ∃ v, remote = RemoteOutcome.resp v ∧ isResultShaped v = false

/-- What `calculator.getUserCalculations` hands back: the raw remote
response, or an array read from localStorage. -/
inductive GetReturn where
  | fromRemote (v : JsValue)
  | localList (l : List StoredEntry)

/-- Sort key used by the history path: `new Date(created_at).getTime()`. -/
def entryTime : StoredEntry → ℤ
  | StoredEntry.nullEntry => 0
  | StoredEntry.stored c => c.created_at

/-- The `total != null` half of the history filter. -/
def totalNotNull : StoredResultData → Bool
  | StoredResultData.ofResult _ => true
  | StoredResultData.withTotal JsValue.jnull => false
  | StoredResultData.withTotal JsValue.undef => false
  | StoredResultData.withTotal _ => true
  | StoredResultData.noTotal => false

/-- The history filter: drop falsy entries, keep records of the given
user whose `result_data` is truthy and carries a non-null total. -/
def keepForUser (uid : String) : StoredEntry → Bool
  | StoredEntry.nullEntry => false
  | StoredEntry.stored c =>
    (c.user_id == uid) &&
      (match c.result_data with
       | none => false
       | some rd => totalNotNull rd)

/-- The descending-timestamp sort of the history path (stable, as the
JavaScript sort is). -/
def sortNewestFirst (l : List StoredEntry) : List StoredEntry :=
  l.mergeSort (fun a b => decide (entryTime b ≤ entryTime a))

/-- `calculator.getUserCalculations`: empty for an unknown user; the raw
`api.get` response when that call does not throw; otherwise the filtered,
newest-first localStorage records, with an absent, corrupt or non-array
slot read as empty. -/
def getUserCalculations (auth : AuthState) (remote : RemoteOutcome)
    (log : LocalLog) : GetReturn :=
  match auth.userId with
  | none => GetReturn.localList []
  | some uid =>
    match apiRequest auth true remote with
    | Except.ok v => GetReturn.fromRemote v
    | Except.error _ =>
      match log with
      | LocalLog.absent => GetReturn.localList []
      | LocalLog.corrupt => GetReturn.localList []
      | LocalLog.notArray => GetReturn.localList []
      | LocalLog.entries l =>
        GetReturn.localList (sortNewestFirst (l.filter (keepForUser uid)))

/-!  Helper lemmas for the calculator operations. -/

theorem isResultShaped_fallbackMessage : isResultShaped fallbackMessage = false := rfl

theorem remoteCalcFailed_apiRequest (auth : AuthState) (isAuthenticated : Bool)
    (remote : RemoteOutcome) (h : remoteCalcFailed remote) :
    ∀ v, apiRequest auth isAuthenticated remote = Except.ok v →
      isResultShaped v = false := by
  intro v hv
  rcases h with rfl | ⟨w, rfl, hw⟩
  · unfold apiRequest at hv
    split at hv
    · exact Except.noConfusion hv
    · injection hv with hv
      rw [← hv]
      exact isResultShaped_fallbackMessage
  · unfold apiRequest at hv
    split at hv
    · exact Except.noConfusion hv
    · injection hv with hv
      rw [← hv]
      exact hw

theorem calculate_fst_fallback (auth : AuthState) (remote : RemoteOutcome)
    (formData : FormData) (isAuthenticated : Bool) (freshId : String) (now : ℤ)
    (log : LocalLog)
    (h : ∀ v, apiRequest auth isAuthenticated remote = Except.ok v →
      isResultShaped v = false) :
    (calculate auth remote formData isAuthenticated freshId now log).1 =
      CalcReturn.fromLocal (mockCalculation (validFormDataOf formData)) := by
  unfold calculate
  cases happ : apiRequest auth isAuthenticated remote with
  | error e =>
    cases isAuthenticated <;> cases hu : auth.userId <;> simp [hu]
  | ok v =>
    have hv := h v happ
    cases isAuthenticated <;> cases hu : auth.userId <;> simp [hu, hv]

/-!  Claims about the persistence fallback. -/

/-- C4: whenever the remote calculation path fails — the network call
fails, or the decoded response does not pass the shape guard — the
calculator returns the result computed locally by the mock calculation.
The embedded `calculate` is a total function, so the remote failure is
never propagated as an error. -/
theorem calculate_falls_back_locally (auth : AuthState) (remote : RemoteOutcome)
    (formData : FormData) (isAuthenticated : Bool) (freshId : String) (now : ℤ)
    (log : LocalLog) (h : remoteCalcFailed remote) :
    (calculate auth remote formData isAuthenticated freshId now log).1 =
      CalcReturn.fromLocal (mockCalculation (validFormDataOf formData)) :=
  calculate_fst_fallback auth remote formData isAuthenticated freshId now log
    (remoteCalcFailed_apiRequest auth isAuthenticated remote h)

/-- Witness for C4: on a network failure, an unauthenticated call with
empty form data returns the locally computed result. -/
theorem calculate_falls_back_locally_witness :
    remoteCalcFailed RemoteOutcome.netFail ∧
    (calculate ⟨none, none⟩ RemoteOutcome.netFail ⟨none, none, none, none⟩
        false "id" 0 LocalLog.absent).1 =
      CalcReturn.fromLocal (mockCalculation (validFormDataOf ⟨none, none, none, none⟩)) :=
  ⟨Or.inl rfl,
    calculate_falls_back_locally ⟨none, none⟩ RemoteOutcome.netFail
      ⟨none, none, none, none⟩ false "id" 0 LocalLog.absent (Or.inl rfl)⟩

/-- C5: when the calculator falls back to the mock calculation with an
authenticated caller, a known user id leads to exactly one new record —
with the synthetic id, the timestamp, and the computed input and result —
appended to the parsed local log, leaving every pre-existing entry in
place; an unknown user id leaves the log untouched while the computed
result is still returned. -/
theorem calculate_fallback_persistence (auth : AuthState) (remote : RemoteOutcome)
    (formData : FormData) (freshId : String) (now : ℤ)
    (h : remoteCalcFailed remote) :
    (∀ uid l, auth.userId = some uid →
      calculate auth remote formData true freshId now (LocalLog.entries l) =
        (CalcReturn.fromLocal (mockCalculation (validFormDataOf formData)),
         LocalLog.entries (l ++ [StoredEntry.stored
           { mongoId := freshId
             user_id := uid
             created_at := now
             result_data := some (StoredResultData.ofResult
               (mockCalculation (validFormDataOf formData)))
             input_data := validFormDataOf formData }]))) ∧
    (∀ log, auth.userId = none →
      calculate auth remote formData true freshId now log =
        (CalcReturn.fromLocal (mockCalculation (validFormDataOf formData)), log)) := by
  have hfail := remoteCalcFailed_apiRequest auth true remote h
  constructor
  · intro uid l huid
    unfold calculate
    cases happ : apiRequest auth true remote with
    | error e => simp [huid, parsedEntries]
    | ok v => simp [huid, hfail v happ, parsedEntries]
  · intro log hnone
    unfold calculate
    cases happ : apiRequest auth true remote with
    | error e => simp [hnone]
    | ok v => simp [hnone, hfail v happ]

/-- Witness for C5: on a network failure with user id "alice" and an
empty log, the new record is appended; with no user id, the absent log is
left as is. -/
theorem calculate_fallback_persistence_witness :
    calculate ⟨some "tok", some "alice"⟩ RemoteOutcome.netFail
        ⟨none, none, none, none⟩ true "id1" 7 (LocalLog.entries []) =
      (CalcReturn.fromLocal (mockCalculation (validFormDataOf ⟨none, none, none, none⟩)),
       LocalLog.entries ([] ++ [StoredEntry.stored
         { mongoId := "id1"
           user_id := "alice"
           created_at := 7
           result_data := some (StoredResultData.ofResult
             (mockCalculation (validFormDataOf ⟨none, none, none, none⟩)))
           input_data := validFormDataOf ⟨none, none, none, none⟩ }])) ∧
    calculate ⟨some "tok", none⟩ RemoteOutcome.netFail
        ⟨none, none, none, none⟩ true "id1" 7 LocalLog.absent =
      (CalcReturn.fromLocal (mockCalculation (validFormDataOf ⟨none, none, none, none⟩)),
       LocalLog.absent) :=
  ⟨(calculate_fallback_persistence ⟨some "tok", some "alice"⟩ RemoteOutcome.netFail
      ⟨none, none, none, none⟩ "id1" 7 (Or.inl rfl)).1 "alice" [] rfl,
   (calculate_fallback_persistence ⟨some "tok", none⟩ RemoteOutcome.netFail
      ⟨none, none, none, none⟩ "id1" 7 (Or.inl rfl)).2 LocalLog.absent rfl⟩

/-- A remote response whose `total` field is present but not numeric. -/
def badTotalResp : JsValue := JsValue.jobj [("total", JsValue.jstr "n/a")]

/-- C7 counterexample: the shape guard only tests membership of the key
`total`, so a response whose total is the string "n/a" — which has no
numeric total — is returned unchanged instead of triggering the local
fallback, falsifying the claim as stated. -/
theorem nonNumericTotal_returned_unchanged :
    hasNumericTotal badTotalResp = false ∧
    (calculate ⟨some "tok", none⟩ (RemoteOutcome.resp badTotalResp)
        ⟨none, none, none, none⟩ false "id" 0 LocalLog.absent).1 =
      CalcReturn.fromRemote badTotalResp := by
  exact ⟨rfl, rfl⟩

/-- C7 amended: provided the request is not rejected for a missing auth
token, the calculator returns the remote response unchanged exactly when
the response is a truthy object carrying a `total` key — regardless of
whether that total is numeric. -/
theorem calculate_returns_remote_iff_shaped (auth : AuthState) (v : JsValue)
    (formData : FormData) (isAuthenticated : Bool) (freshId : String) (now : ℤ)
    (log : LocalLog) (htok : isAuthenticated = true → auth.token ≠ none) :
    (calculate auth (RemoteOutcome.resp v) formData isAuthenticated freshId now log).1 =
      CalcReturn.fromRemote v ↔ isResultShaped v = true := by
  have happ : apiRequest auth isAuthenticated (RemoteOutcome.resp v) = Except.ok v := by
    unfold apiRequest
    rw [if_neg]
    rintro ⟨hA, ht⟩
    exact htok hA ht
  constructor
  · intro hEq
    by_contra hs
    have hs' : isResultShaped v = false := by simpa using hs
    have hlocal := calculate_fst_fallback auth (RemoteOutcome.resp v) formData
      isAuthenticated freshId now log (by intro w hw; rw [happ] at hw; injection hw with hw; rw [← hw]; exact hs')
    rw [hEq] at hlocal
    exact CalcReturn.noConfusion hlocal
  · intro hs
    unfold calculate
    rw [happ]
    simp [hs]

/-- Witness for C7 (amended): a numeric-total response is returned
unchanged, and the message object is not. -/
theorem calculate_returns_remote_iff_shaped_witness :
    ((calculate ⟨none, none⟩ (RemoteOutcome.resp (JsValue.jobj [("total", JsValue.jnum 5)]))
        ⟨none, none, none, none⟩ false "id" 0 LocalLog.absent).1 =
      CalcReturn.fromRemote (JsValue.jobj [("total", JsValue.jnum 5)]) ↔
        isResultShaped (JsValue.jobj [("total", JsValue.jnum 5)]) = true) ∧
    ((calculate ⟨none, none⟩ (RemoteOutcome.resp fallbackMessage)
        ⟨none, none, none, none⟩ false "id" 0 LocalLog.absent).1 =
      CalcReturn.fromRemote fallbackMessage ↔
        isResultShaped fallbackMessage = true) :=
  ⟨calculate_returns_remote_iff_shaped ⟨none, none⟩ (JsValue.jobj [("total", JsValue.jnum 5)])
      ⟨none, none, none, none⟩ false "id" 0 LocalLog.absent (by intro h; exact absurd h (by simp)),
   calculate_returns_remote_iff_shaped ⟨none, none⟩ fallbackMessage
      ⟨none, none, none, none⟩ false "id" 0 LocalLog.absent (by intro h; exact absurd h (by simp))⟩

/-- C9: a category field of the form data that is missing or not an array
is coerced to the empty array before computing, and the fallback result is
the mock calculation of the coerced input; the embedded `calculate` is a
total function, so it never fails on malformed category containers. -/
theorem calculate_coerces_malformed_fields (auth : AuthState) (remote : RemoteOutcome)
    (formData : FormData) (isAuthenticated : Bool) (freshId : String) (now : ℤ)
    (log : LocalLog) (h : remoteCalcFailed remote) :
    validFormDataOf formData =
      { transportData := formData.transportData.getD []
        electricityData := formData.electricityData.getD []
        wasteData := formData.wasteData.getD []
        foodData := formData.foodData.getD [] } ∧
    (calculate auth remote formData isAuthenticated freshId now log).1 =
      CalcReturn.fromLocal (mockCalculation
        { transportData := formData.transportData.getD []
          electricityData := formData.electricityData.getD []
          wasteData := formData.wasteData.getD []
          foodData := formData.foodData.getD [] }) :=
  ⟨rfl, calculate_fst_fallback auth remote formData isAuthenticated freshId now log
    (remoteCalcFailed_apiRequest auth isAuthenticated remote h)⟩

/-- Witness for C9: with every category field malformed, the fallback
computes the mock calculation of the all-empty input. -/
theorem calculate_coerces_malformed_fields_witness :
    (calculate ⟨none, none⟩ RemoteOutcome.netFail ⟨none, none, none, none⟩
        false "id" 0 LocalLog.absent).1 =
      CalcReturn.fromLocal (mockCalculation ⟨[], [], [], []⟩) :=
  (calculate_coerces_malformed_fields ⟨none, none⟩ RemoteOutcome.netFail
    ⟨none, none, none, none⟩ false "id" 0 LocalLog.absent (Or.inl rfl)).2

/-- C6: the claim fails on the code.  At the failing input — a user with
an id and a token, a network failure on the history call, and a local log
holding a valid record of that very user — `getUserCalculations` returns
the transport layer's placeholder message object, not the user's local
records: the inner catch of `api.get` swallows the network failure, so
the localStorage branch is unreachable on network failure. -/
theorem getUserCalculations_netFail_placeholder :
    getUserCalculations ⟨some "tok", some "alice"⟩ RemoteOutcome.netFail
        (LocalLog.entries [StoredEntry.stored
          { mongoId := "c7"
            user_id := "alice"
            created_at := 5
            result_data := some (StoredResultData.ofResult
              (mockCalculation ⟨[], [], [], []⟩))
            input_data := ⟨[], [], [], []⟩ }]) =
      GetReturn.fromRemote fallbackMessage := rfl

end EcoScore
